import Mathlib

/-!
# Verification of the SnelDB Python client core

Shallow embedding of the transport/protocol core of the SnelDB Python
client (`sneldb_client`): the response normalizer (`parser.py`), the
credential/session manager (`auth.py`), the TCP framing loop bounds
(`transport/tcp.py`) and the client response handler (`client.py`).

Modelling conventions:
* Python byte strings that are immediately decoded with
  `decode("utf-8", errors="replace")` are modelled as the decoded text.
* Python `str` methods (`strip`, `split`, `upper`, ...) are modelled for
  the ASCII range, which is the range exercised by the protocol.
* `json.loads` is modelled by a reference JSON parser over an inductive
  JSON value type; integer literals become `jint`, literals with a
  fraction or exponent keep their lexeme (`jnum`), since the client never
  computes with numeric values.
* Exceptions are modelled by an explicit error type `PyErr`; the library's
  own `SnelDBError` subclasses are the `sneldb` constructor, and raw
  Python exceptions that can escape (`NameError`, `IndexError`,
  `AttributeError`, `json.JSONDecodeError`) get constructors of their own.
-/

namespace SnelDB

/-! ## Python string primitives (ASCII model) -/

/-- Python `str` whitespace (`str.strip` / `str.split()` class), ASCII part. -/
def pyWs (c : Char) : Bool :=
  c = ' ' || c = '\t' || c = '\n' || c = '\r' || c = '\x0b' || c = '\x0c'

def pyStripChars (cs : List Char) : List Char :=
  ((cs.dropWhile pyWs).reverse.dropWhile pyWs).reverse

/-- Model of Python `str.strip()`. -/
def pyStrip (s : String) : String :=
  ⟨pyStripChars s.data⟩

def asciiUpperChar (c : Char) : Char :=
  if 'a' ≤ c && c ≤ 'z' then Char.ofNat (c.toNat - 32) else c

def asciiLowerChar (c : Char) : Char :=
  if 'A' ≤ c && c ≤ 'Z' then Char.ofNat (c.toNat + 32) else c

/-- Model of Python `str.upper()` (ASCII). -/
def pyUpper (s : String) : String :=
  ⟨s.data.map asciiUpperChar⟩

/-- Model of Python `str.lower()` (ASCII). -/
def pyLower (s : String) : String :=
  ⟨s.data.map asciiLowerChar⟩

/-- Model of Python `a.startswith(b)`. -/
def pyStartsWith (s pre : String) : Bool :=
  pre.data.isPrefixOf s.data

def listHasSub (needle : List Char) : List Char → Bool
  | [] => needle.isEmpty
  | c :: rest => needle.isPrefixOf (c :: rest) || listHasSub needle rest

/-- Model of Python `needle in hay` on strings. -/
def pyContains (hay needle : String) : Bool :=
  listHasSub needle.data hay.data

/-- Suffix of `hay` after the first occurrence of `needle`
(`hay[hay.find(needle) + len(needle):]` when `needle in hay`). -/
def suffixAfterSub (needle : List Char) : List Char → Option (List Char)
  | [] => if needle.isEmpty then some [] else none
  | c :: rest =>
    if needle.isPrefixOf (c :: rest) then some ((c :: rest).drop needle.length)
    else suffixAfterSub needle rest

def splitCharAux (sep : Char) : List Char → List Char → List (List Char)
  | [], acc => [acc.reverse]
  | c :: rest, acc =>
    if c = sep then acc.reverse :: splitCharAux sep rest []
    else splitCharAux sep rest (c :: acc)

/-- Model of Python `s.split(sep)` for a single-character separator. -/
def pySplitOn (sep : Char) (s : String) : List String :=
  (splitCharAux sep s.data []).map String.mk

def splitWsAux : List Char → List Char → List (List Char)
  | [], [] => []
  | [], acc => [acc.reverse]
  | c :: rest, acc =>
    if pyWs c then
      match acc with
      | [] => splitWsAux rest []
      | _ => acc.reverse :: splitWsAux rest []
    else splitWsAux rest (c :: acc)

/-- Model of Python `s.split()` (split on whitespace runs, dropping empties). -/
def pySplitWs (s : String) : List String :=
  (splitWsAux s.data []).map String.mk

def dropTrailingCr (cs : List Char) : List Char :=
  match cs.reverse with
  | '\r' :: rest => rest.reverse
  | _ => cs

/-- Model of Python `s.splitlines()` for `\n` / `\r\n` terminated text. -/
def pySplitlines (s : String) : List String :=
  ((splitCharAux '\n' s.data []).map dropTrailingCr).map String.mk

/-- Model of Python `line.rstrip("\r\n")`. -/
def pyRstripCrLf (s : String) : String :=
  ⟨(s.data.reverse.dropWhile (fun c => c = '\r' || c = '\n')).reverse⟩

def pyIsDigitChar (c : Char) : Bool :=
  '0' ≤ c && c ≤ '9'

/-- Model of Python `s.isdigit()` (ASCII digits; empty string is `False`). -/
def pyIsDigit (s : String) : Bool :=
  !s.data.isEmpty && s.data.all pyIsDigitChar

def pyIsAlnumChar (c : Char) : Bool :=
  ('a' ≤ c && c ≤ 'z') || ('A' ≤ c && c ≤ 'Z') || pyIsDigitChar c

/-- Model of Python `s.isalnum()` (ASCII; empty string is `False`). -/
def pyIsAlnum (s : String) : Bool :=
  !s.data.isEmpty && s.data.all pyIsAlnumChar

/-- Model of Python `s[:n]`. -/
def pyTake (n : Nat) (s : String) : String :=
  ⟨s.data.take n⟩

/-- Python truthiness of an optional string (`None` and `""` are falsy). -/
def optTruthy : Option String → Bool
  | none => false
  | some s => !s.data.isEmpty

/-! ## JSON values and a reference model of `json.loads` -/

/-- JSON values as produced by Python's `json.loads`. Integer literals are
`jint`; literals with a fraction or exponent keep their lexeme in `jnum`
(the client never computes with numbers). Objects keep Python `dict`
semantics: first-occurrence order, later duplicate keys overwrite. -/
inductive JValue where
  | null : JValue
  | jbool : Bool → JValue
  | jint : Int → JValue
  | jnum : String → JValue
  | jstr : String → JValue
  | jarr : List JValue → JValue
  | jobj : List (String × JValue) → JValue

/-- Python `dict` lookup on the association-list model. -/
def dictGet (kvs : List (String × JValue)) (k : String) : Option JValue :=
  (kvs.find? (fun p => p.1 = k)).map Prod.snd

/-- Python `dict` assignment: update in place keeps the original position,
a new key is appended. -/
def dictSet (kvs : List (String × JValue)) (k : String) (v : JValue) :
    List (String × JValue) :=
  if kvs.any (fun p => p.1 = k) then
    kvs.map (fun p => if p.1 = k then (k, v) else p)
  else kvs ++ [(k, v)]

/-- JSON whitespace per RFC 8259 (what `json.loads` skips between tokens). -/
def jsonWs (c : Char) : Bool :=
  c = ' ' || c = '\t' || c = '\n' || c = '\r'

def skipJsonWs (cs : List Char) : List Char :=
  cs.dropWhile jsonWs

/-- Value of a hex digit, comparing on code points (48–57 digits,
97–102 lowercase, 65–70 uppercase). -/
def hexDigitVal (c : Char) : Option Nat :=
  let n := c.toNat
  if 48 ≤ n ∧ n ≤ 57 then some (n - 48)
  else if 97 ≤ n ∧ n ≤ 102 then some (n - 87)
  else if 65 ≤ n ∧ n ≤ 70 then some (n - 55)
  else none

/-- Lex a JSON string body after the opening quote (fuel-indexed; callers
supply at least the remaining length plus one, which always suffices since
every step consumes a character). Returns the decoded characters and the
remainder after the closing quote. Unicode escapes that are not valid
scalar values map to `Char.ofNat`'s default. -/
def jlexStringF : Nat → List Char → Option (List Char × List Char)
  | 0, _ => none
  | _, [] => none
  | Nat.succ f, cs =>
    match cs with
    | '"' :: rest => some ([], rest)
    | '\\' :: esc =>
      match esc with
      | '"' :: rest => (jlexStringF f rest).map (fun p => ('"' :: p.1, p.2))
      | '\\' :: rest => (jlexStringF f rest).map (fun p => ('\\' :: p.1, p.2))
      | '/' :: rest => (jlexStringF f rest).map (fun p => ('/' :: p.1, p.2))
      | 'b' :: rest => (jlexStringF f rest).map (fun p => ('\x08' :: p.1, p.2))
      | 'f' :: rest => (jlexStringF f rest).map (fun p => ('\x0c' :: p.1, p.2))
      | 'n' :: rest => (jlexStringF f rest).map (fun p => ('\n' :: p.1, p.2))
      | 'r' :: rest => (jlexStringF f rest).map (fun p => ('\r' :: p.1, p.2))
      | 't' :: rest => (jlexStringF f rest).map (fun p => ('\t' :: p.1, p.2))
      | 'u' :: h1 :: h2 :: h3 :: h4 :: rest =>
        match hexDigitVal h1, hexDigitVal h2, hexDigitVal h3, hexDigitVal h4 with
        | some a, some b, some c, some d =>
          let code := ((a * 16 + b) * 16 + c) * 16 + d
          (jlexStringF f rest).map (fun p => (Char.ofNat code :: p.1, p.2))
        | _, _, _, _ => none
      | _ => none
    | c :: rest =>
      if c.toNat < 32 then none
      else (jlexStringF f rest).map (fun p => (c :: p.1, p.2))
    | [] => none

/-- Lex a JSON string body after the opening quote. -/
def jlexString (cs : List Char) : Option (List Char × List Char) :=
  jlexStringF (cs.length + 1) cs

def digitsToNat (ds : List Char) : Nat :=
  ds.foldl (fun acc c => acc * 10 + (c.toNat - '0'.toNat)) 0

/-- Lex a JSON number starting at `cs`. Returns the value (an `Int` for an
integer literal, the lexeme for fraction/exponent forms) and the rest. -/
def jlexNumber (cs : List Char) : Option (JValue × List Char) :=
  let (neg, cs1) :=
    match cs with
    | '-' :: rest => (true, rest)
    | _ => (false, cs)
  let intPart := cs1.takeWhile pyIsDigitChar
  let cs2 := cs1.dropWhile pyIsDigitChar
  let okInt :=
    match intPart with
    | [] => false
    | ['0'] => true
    | '0' :: _ => false
    | _ => true
  if !okInt then none
  else
    let fracOpt : Option (List Char × List Char) :=
      match cs2 with
      | '.' :: rest =>
        let ds := rest.takeWhile pyIsDigitChar
        if ds.isEmpty then none
        else some ('.' :: ds, rest.dropWhile pyIsDigitChar)
      | _ => some ([], cs2)
    match fracOpt with
    | none => none
    | some (fracPart, cs3) =>
      let expOpt : Option (List Char × List Char) :=
        match cs3 with
        | e :: rest =>
          if e = 'e' || e = 'E' then
            let (sgn, rest1) :=
              match rest with
              | '+' :: r => (['+'], r)
              | '-' :: r => (['-'], r)
              | _ => (([] : List Char), rest)
            let ds := rest1.takeWhile pyIsDigitChar
            if ds.isEmpty then none
            else some (e :: (sgn ++ ds), rest1.dropWhile pyIsDigitChar)
          else some ([], cs3)
        | [] => some ([], cs3)
      match expOpt with
      | none => none
      | some (ep, cs4) =>
        if fracPart.isEmpty && ep.isEmpty then
          let v : Int := Int.ofNat (digitsToNat intPart)
          some (.jint (if neg then -v else v), cs4)
        else
          let lexeme : List Char :=
            (if neg then ['-'] else []) ++ intPart ++ fracPart ++ ep
          some (.jnum ⟨lexeme⟩, cs4)

mutual

/-- Parse one JSON value (fuel-indexed; `jloads` supplies ample fuel). -/
def jparseValue : Nat → List Char → Option (JValue × List Char)
  | 0, _ => none
  | Nat.succ f, cs =>
    match skipJsonWs cs with
    | [] => none
    | '{' :: rest => jparseFields f (skipJsonWs rest) []
    | '[' :: rest => jparseElems f (skipJsonWs rest) []
    | '"' :: rest => (jlexString rest).map (fun p => (.jstr ⟨p.1⟩, p.2))
    | 't' :: 'r' :: 'u' :: 'e' :: rest => some (.jbool true, rest)
    | 'f' :: 'a' :: 'l' :: 's' :: 'e' :: rest => some (.jbool false, rest)
    | 'n' :: 'u' :: 'l' :: 'l' :: rest => some (.null, rest)
    | cs1 => jlexNumber cs1

/-- Parse object members; `cs` starts right after `{` or after a comma
(whitespace already skipped), `acc` holds the fields parsed so far. -/
def jparseFields (f : Nat) (cs : List Char) (acc : List (String × JValue)) :
    Option (JValue × List Char) :=
  match f with
  | 0 => none
  | Nat.succ f1 =>
    match cs with
    | '}' :: rest => if acc.isEmpty then some (.jobj [], rest) else none
    | '"' :: rest =>
      match jlexString rest with
      | none => none
      | some (key, rest1) =>
        match skipJsonWs rest1 with
        | ':' :: rest2 =>
          match jparseValue f1 rest2 with
          | none => none
          | some (v, rest3) =>
            let acc1 := dictSet acc ⟨key⟩ v
            match skipJsonWs rest3 with
            | ',' :: rest4 =>
              match skipJsonWs rest4 with
              | '"' :: rest5 => jparseFields f1 ('"' :: rest5) acc1
              | _ => none
            | '}' :: rest4 => some (.jobj acc1, rest4)
            | _ => none
        | _ => none
    | _ => none

/-- Parse array elements; `cs` starts right after `[` or after a comma
(whitespace already skipped). -/
def jparseElems (f : Nat) (cs : List Char) (acc : List JValue) :
    Option (JValue × List Char) :=
  match f with
  | 0 => none
  | Nat.succ f1 =>
    match cs with
    | ']' :: rest => if acc.isEmpty then some (.jarr [], rest) else none
    | _ =>
      match jparseValue f1 cs with
      | none => none
      | some (v, rest) =>
        match skipJsonWs rest with
        | ',' :: rest1 => jparseElems f1 (skipJsonWs rest1) (acc ++ [v])
        | ']' :: rest1 => some (.jarr (acc ++ [v]), rest1)
        | _ => none

end

/-- Model of Python `json.loads`: parse a full JSON document, requiring the
remainder (after trailing whitespace) to be empty. `none` models a raised
`json.JSONDecodeError`. -/
def jloads (s : String) : Option JValue :=
  match jparseValue (2 * s.data.length + 16) s.data with
  | some (v, rest) => if (skipJsonWs rest).isEmpty then some v else none
  | none => none

/-! ## Errors

`SnelKind` enumerates the `SnelDBError` subclasses of `errors.py`; `PyErr`
additionally models the raw Python exceptions that the embedded code can
raise (`json.JSONDecodeError`, `NameError`, `IndexError`,
`AttributeError`). -/

inductive SnelKind where
  | connection | authentication | authorization | command | notFound | server | parse
deriving DecidableEq

inductive PyErr where
  | sneldb : SnelKind → String → PyErr
  | jsonDecodeError : PyErr
  | nameError : String → PyErr
  | indexError : PyErr
  | attributeError : PyErr
deriving DecidableEq

/-- Is a result a raised `ParseError` (the spec's ParseFailure)? -/
def isParseFailure {α : Type} : Except PyErr α → Bool
  | .error (.sneldb .parse _) => true
  | _ => false

/-! ## Python `str()` / `repr()` rendering of decoded JSON values

Used by `extract_error_message` (`str(message)`) and `_row_from_schema`
(`str(column_name)`). Container rendering follows Python's `repr`
(string escaping inside `repr` is not modelled; no claim depends on it). -/

def pyReprStr (s : String) : String :=
  "'" ++ s ++ "'"

def pyRepr : JValue → String
  | .null => "None"
  | .jbool true => "True"
  | .jbool false => "False"
  | .jint n => toString n
  | .jnum l => l
  | .jstr s => pyReprStr s
  | .jarr xs =>
    "[" ++ String.intercalate ", " (xs.attach.map (fun x => pyRepr x.1)) ++ "]"
  | .jobj kvs =>
    "\x7b" ++ String.intercalate ", "
      (kvs.attach.map (fun p => pyReprStr p.1.1 ++ ": " ++ pyRepr p.1.2)) ++ "\x7d"
termination_by v => sizeOf v
decreasing_by
  · have h1 := List.sizeOf_lt_of_mem x.2
    simp at h1 ⊢
    omega
  · obtain ⟨⟨k, v⟩, hp⟩ := p
    have h1 := List.sizeOf_lt_of_mem hp
    simp at h1 ⊢
    omega

/-- Model of Python `str(v)` on a decoded JSON value. -/
def pyStr : JValue → String
  | .jstr s => s
  | v => pyRepr v

/-! ## Embedding of `parser.py` -/

/-- Embeds `parser.extract_error_message`. -/
def extract_error_message (body : String) : String :=
  if body.data.isEmpty then "Error occurred"
  else
    match jloads body with
    | none => if (pyStrip body).data.isEmpty then "Error occurred" else pyStrip body
    | some parsed =>
      match parsed with
      | .jobj kvs =>
        match dictGet kvs "message" with
        | some (.jstr m) => m
        | some v => pyStr v
        | none => if (pyStrip body).data.isEmpty then "Error occurred" else pyStrip body
      | _ => if (pyStrip body).data.isEmpty then "Error occurred" else pyStrip body

/-- Embeds `parser.drop_status_prefix`: drop the first line when it looks
like a status/noise line (`first.upper().startswith("OK")`,
`first.startswith("200 ")`, or `first[:3].isdigit()`). -/
def dropStatusLine (lines : List String) : List String :=
  match lines with
  | [] => lines
  | first :: rest =>
    if pyStartsWith (pyUpper first) "OK" || pyStartsWith first "200 "
        || pyIsDigit (pyTake 3 first) then rest
    else first :: rest

def pyEndsWith (s suf : String) : Bool :=
  suf.data.isSuffixOf s.data

/-- Embeds `parser.looks_like_json_object`. -/
def looksLikeJsonObject (text : String) : Bool :=
  let st := pyStrip text
  pyStartsWith st "\x7b" && pyEndsWith st "\x7d"

/-- Embeds `parser.looks_like_json_array`. -/
def looksLikeJsonArray (text : String) : Bool :=
  let st := pyStrip text
  pyStartsWith st "[" && pyEndsWith st "]"

/-- `header.replace("_", "").isalnum()` from `parser.parse_pipe_delimited`. -/
def headerTokenOk (h : String) : Bool :=
  let t := h.data.filter (fun c => c ≠ '_')
  !t.isEmpty && t.all pyIsAlnumChar

/-- Embeds `parser.parse_pipe_delimited` (callers guarantee a nonempty
line list, since they checked `"|" in data_lines[0]`). -/
def parse_pipe_delimited (lines : List String) : List JValue :=
  match lines with
  | [] => []
  | l0 :: restLines =>
    let headers := (pySplitOn '|' l0).map pyStrip
    let headerRow := !headers.isEmpty && headers.all headerTokenOk
    let body := if headerRow then restLines else l0 :: restLines
    body.map (fun line =>
      let values := (pySplitOn '|' line).map pyStrip
      if headerRow && values.length = headers.length then
        .jobj ((headers.zip values).foldl
          (fun acc p => dictSet acc (pyLower p.1) (.jstr p.2)) [])
      else
        .jobj [("raw", .jstr line), ("parts", .jarr (values.map JValue.jstr))])

/-- Streaming-decode state: accumulated records and the last-seen schema
(`parser.parse_streaming_json_response`'s loop variables). -/
structure SState where
  records : List JValue
  schema : Option (List JValue)

/-- Python truthiness of the `schema` variable: `None` and `[]` are falsy. -/
def schemaTruthy : Option (List JValue) → Bool
  | some (_ :: _) => true
  | _ => false

def schemaList : Option (List JValue) → List JValue
  | some l => l
  | none => []

def rowFromSchemaAux (schema : List JValue) :
    List JValue → Nat → List (String × JValue) → Except PyErr (List (String × JValue))
  | [], _, acc => .ok acc
  | v :: vs, idx, acc =>
    if h : idx < schema.length then
      match schema.get ⟨idx, h⟩ with
      | .jobj kvs =>
        let nameV := match dictGet kvs "name" with | some x => x | none => JValue.null
        rowFromSchemaAux schema vs (idx + 1) (dictSet acc (pyStr nameV) v)
      | _ => .error .attributeError
    else rowFromSchemaAux schema vs (idx + 1) (dictSet acc ("col_" ++ toString idx) v)

/-- Embeds `parser._row_from_schema`: label positional values with schema
column names (`schema[idx].get("name")`, falling back to `col_{idx}`); a
non-`dict` schema entry raises `AttributeError`. -/
def rowFromSchema (values schema : List JValue) : Except PyErr JValue :=
  (rowFromSchemaAux schema values 0 []).map JValue.jobj

/-- The `batch` frame's per-row loop of `parser.parse_streaming_json_response`. -/
def processRows (schema : Option (List JValue)) :
    List JValue → List JValue → Except PyErr (List JValue)
  | recs, [] => .ok recs
  | recs, r :: rs =>
    match r with
    | .jarr vals =>
      if schemaTruthy schema then
        match rowFromSchema vals (schemaList schema) with
        | .error e => .error e
        | .ok rec => processRows schema (recs ++ [rec]) rs
      else processRows schema (recs ++ [.jobj [("values", .jarr vals)]]) rs
    | _ => processRows schema recs rs

/-- One loop iteration of `parser.parse_streaming_json_response`:
`.ok none` models hitting the `end` frame (`break`), `.ok (some st)` an
iteration that continues with updated state, `.error` a raised exception
(`json.loads`, or `.get` on a non-`dict`). -/
def streamLine (st : SState) (line : String) : Except PyErr (Option SState) :=
  if line.data.isEmpty then .ok (some st)
  else
    match jloads line with
    | none => .error .jsonDecodeError
    | some frame =>
      match frame with
      | .jobj kvs =>
        match dictGet kvs "type" with
        | some (.jstr t) =>
          if t = "schema" then
            match dictGet kvs "columns" with
            | some (.jarr cols) => .ok (some { st with schema := some cols })
            | _ => .ok (some st)
          else if t = "batch" then
            match dictGet kvs "rows" with
            | some (.jarr rows) =>
              match processRows st.schema st.records rows with
              | .error e => .error e
              | .ok recs => .ok (some { st with records := recs })
            | _ => .ok (some st)
          else if t = "row" then
            match dictGet kvs "values" with
            | some (.jobj vkvs) => .ok (some { st with records := st.records ++ [.jobj vkvs] })
            | some (.jarr vals) =>
              if schemaTruthy st.schema then
                match rowFromSchema vals (schemaList st.schema) with
                | .error e => .error e
                | .ok rec => .ok (some { st with records := st.records ++ [rec] })
              else .ok (some { st with records := st.records ++ [.jobj [("values", .jarr vals)]] })
            | _ => .ok (some st)
          else if t = "end" then .ok none
          else .ok (some st)
        | _ => .ok (some st)
      | _ => .error .attributeError

/-- The full frame loop, from an arbitrary state. -/
def parseStreamAux (st : SState) : List String → Except PyErr (List JValue)
  | [] => .ok st.records
  | l :: ls =>
    match streamLine st l with
    | .error e => .error e
    | .ok none => .ok st.records
    | .ok (some st1) => parseStreamAux st1 ls

/-- Run the frame loop over a list of lines without finishing: `.ok none`
means an `end` frame was hit, `.ok (some st)` that all lines were consumed
with final state `st`. -/
def runLines (st : SState) : List String → Except PyErr (Option SState)
  | [] => .ok (some st)
  | l :: ls =>
    match streamLine st l with
    | .error e => .error e
    | .ok none => .ok none
    | .ok (some st1) => runLines st1 ls

/-- Embeds `parser.parse_streaming_json_response`. -/
def parse_streaming_json_response (lines : List String) : Except PyErr (List JValue) :=
  parseStreamAux ⟨[], none⟩ lines

/-- The condition guarding the streaming branch of
`parser.parse_text_to_records`:
`data_lines and data_lines[0].startswith("{") and '"type"' in data_lines[0]`. -/
def streamingCond (dataLines : List String) : Bool :=
  match dataLines with
  | l0 :: _ => pyStartsWith l0 "\x7b" && pyContains l0 "\"type\""
  | [] => false

/-- The `looks_like_json_object` branch of `parse_text_to_records`:
`some r` when the branch returns or raises, `none` when it falls through. -/
def jsonObjectBranch (text : String) : Option (Except PyErr (List JValue)) :=
  if looksLikeJsonObject text then
    match jloads text with
    | none => some (.error (.sneldb .parse "Invalid JSON response"))
    | some (.jarr xs) => some (.ok xs)
    | some (.jobj kvs) => some (.ok [.jobj kvs])
    | some _ => none
  else none

/-- The `looks_like_json_array` branch of `parse_text_to_records`. -/
def jsonArrayBranch (text : String) : Option (Except PyErr (List JValue)) :=
  if looksLikeJsonArray text then
    match jloads text with
    | none => some (.error (.sneldb .parse "Invalid JSON response"))
    | some (.jarr xs) => some (.ok xs)
    | some (.jobj kvs) => some (.ok [.jobj kvs])
    | some _ => none
  else none

/-- The stripped, non-blank lines of the body
(`[line.strip() for line in text.splitlines() if line.strip()]`). -/
def bodyLines (text : String) : List String :=
  ((pySplitlines text).map pyStrip).filter (fun l => !l.data.isEmpty)

/-- Embeds `parser.parse_text_to_records`. The wrap message for malformed
JSON models `f"Invalid JSON response: {exc}"` without the exception text. -/
def parse_text_to_records (textData : String) : Except PyErr (List JValue) :=
  let text := pyStrip textData
  if text.data.isEmpty then .ok []
  else
    let dataLines := dropStatusLine (bodyLines text)
    if streamingCond dataLines then parse_streaming_json_response dataLines
    else
      match jsonObjectBranch text with
      | some r => r
      | none =>
        match jsonArrayBranch text with
        | some r => r
        | none =>
          match dataLines with
          | [] => .ok []
          | l0 :: _ =>
            if pyContains l0 "|" then .ok (parse_pipe_delimited dataLines)
            else .ok (dataLines.map (fun l => .jobj [("raw", .jstr l)]))

/-- Faults of the external `pyarrow` reader (open vs. iteration), which
`parser.parse_arrow_to_records` wraps into `ParseError`. -/
inductive ArrowFault where
  | openFailed | readFailed
deriving DecidableEq

/-- Embeds `parser.parse_arrow_to_records`. `hasArrow` models the module
flag `_HAS_ARROW`; the `pyarrow` stream reader and the batch-to-record
zipping it feeds are external code, modelled by the `arrowReader`
parameter; error messages are abbreviated. -/
def parse_arrow_to_records (hasArrow : Bool)
    (arrowReader : String → Except ArrowFault (List JValue)) (data : String) :
    Except PyErr (List JValue) :=
  if !hasArrow then
    .error (.sneldb .parse "Arrow response received but pyarrow is not installed")
  else
    match arrowReader data with
    | .error .openFailed => .error (.sneldb .parse "Failed to open Arrow stream")
    | .error .readFailed => .error (.sneldb .parse "Failed to read Arrow batch")
    | .ok recs => .ok recs

/-- Embeds `parser._looks_like_arrow`. -/
def looksLikeArrow (contentType body : String) : Bool :=
  pyContains contentType "arrow" || (decide (body.data.length > 4) && pyTake 2 body = "LP")

/-- `{status, body, headers}` triple. The body is modelled as its
utf-8 `errors="replace"` decoding; of the headers only the lower-cased
`content-type` value is relevant to the core. -/
structure TransportResponse where
  status : Nat
  body : String
  contentType : String
deriving DecidableEq

/-- Embeds `parser.parse_and_normalize_response`. -/
def parse_and_normalize_response (hasArrow : Bool)
    (arrowReader : String → Except ArrowFault (List JValue))
    (resp : TransportResponse) : Except PyErr (List JValue) :=
  if looksLikeArrow (pyLower resp.contentType) resp.body then
    parse_arrow_to_records hasArrow arrowReader resp.body
  else parse_text_to_records resp.body

/-! ## SHA-256 and HMAC (reference model of `hashlib.sha256` / `hmac.new`)

Bytes are `Nat`s below 256, 32-bit words are `Nat`s reduced mod `2 ^ 32`. -/

def w32 (n : Nat) : Nat := n % 4294967296

def rotr32 (k x : Nat) : Nat :=
  w32 ((x >>> k) ||| (x <<< (32 - k)))

def bigS0 (x : Nat) : Nat := (rotr32 2 x) ^^^ (rotr32 13 x) ^^^ (rotr32 22 x)
def bigS1 (x : Nat) : Nat := (rotr32 6 x) ^^^ (rotr32 11 x) ^^^ (rotr32 25 x)
def smallS0 (x : Nat) : Nat := (rotr32 7 x) ^^^ (rotr32 18 x) ^^^ (x >>> 3)
def smallS1 (x : Nat) : Nat := (rotr32 17 x) ^^^ (rotr32 19 x) ^^^ (x >>> 10)

def sha256K : List Nat :=
  [1116352408, 1899447441, 3049323471, 3921009573, 961987163, 1508970993,
   2453635748, 2870763221, 3624381080, 310598401, 607225278, 1426881987,
   1925078388, 2162078206, 2614888103, 3248222580, 3835390401, 4022224774,
   264347078, 604807628, 770255983, 1249150122, 1555081692, 1996064986,
   2554220882, 2821834349, 2952996808, 3210313671, 3336571891, 3584528711,
   113926993, 338241895, 666307205, 773529912, 1294757372, 1396182291,
   1695183700, 1986661051, 2177026350, 2456956037, 2730485921, 2820302411,
   3259730800, 3345764771, 3516065817, 3600352804, 4094571909, 275423344,
   430227734, 506948616, 659060556, 883997877, 958139571, 1322822218,
   1537002063, 1747873779, 1955562222, 2024104815, 2227730452, 2361852424,
   2428436474, 2756734187, 3204031479, 3329325298]

def sha256H0 : List Nat :=
  [1779033703, 3144134277, 1013904242, 2773480762, 1359893119, 2600822924,
   528734635, 1541459225]

/-- Big-endian bytes of `n`, `k` bytes wide. -/
def beBytes (k n : Nat) : List Nat :=
  (List.range k).map (fun i => (n >>> (8 * (k - 1 - i))) % 256)

def bytesToWords : List Nat → List Nat
  | b0 :: b1 :: b2 :: b3 :: rest =>
    (((b0 * 256 + b1) * 256 + b2) * 256 + b3) :: bytesToWords rest
  | _ => []

/-- SHA-256 padding: append `0x80`, zeros, and the 64-bit bit length. -/
def sha256Pad (msg : List Nat) : List Nat :=
  let len := msg.length
  let padLen := (64 - ((len + 9) % 64)) % 64
  msg ++ (128 :: List.replicate padLen 0) ++ beBytes 8 (8 * len)

def chunksOf64 : Nat → List Nat → List (List Nat)
  | 0, _ => []
  | _, [] => []
  | Nat.succ f, cs => cs.take 64 :: chunksOf64 f (cs.drop 64)

/-- Extend the 16 message words by `n` schedule words. -/
def extendW (w : List Nat) : Nat → List Nat
  | 0 => w
  | Nat.succ n =>
    let i := w.length
    let t := w32 (smallS1 (w.getD (i - 2) 0) + w.getD (i - 7) 0 +
      smallS0 (w.getD (i - 15) 0) + w.getD (i - 16) 0)
    extendW (w ++ [t]) n

def sha256Rounds :
    List (Nat × Nat) → Nat → Nat → Nat → Nat → Nat → Nat → Nat → Nat → List Nat
  | [], a, b, c, d, e, f, g, h => [a, b, c, d, e, f, g, h]
  | (kc, wc) :: rest, a, b, c, d, e, f, g, h =>
    let t1 := w32 (h + bigS1 e + ((e &&& f) ^^^ ((4294967295 - e) &&& g)) + kc + wc)
    let t2 := w32 (bigS0 a + ((a &&& b) ^^^ (a &&& c) ^^^ (b &&& c)))
    sha256Rounds rest (w32 (t1 + t2)) a b c (w32 (d + t1)) e f g

def sha256Chunk (h : List Nat) (chunk : List Nat) : List Nat :=
  let w := extendW (bytesToWords chunk) 48
  let out := sha256Rounds (sha256K.zip w) (h.getD 0 0) (h.getD 1 0) (h.getD 2 0)
    (h.getD 3 0) (h.getD 4 0) (h.getD 5 0) (h.getD 6 0) (h.getD 7 0)
  (h.zip out).map (fun p => w32 (p.1 + p.2))

/-- SHA-256 of a byte list, as 32 bytes. -/
def sha256 (msg : List Nat) : List Nat :=
  let padded := sha256Pad msg
  let final := (chunksOf64 padded.length padded).foldl sha256Chunk sha256H0
  final.foldr (fun wd acc => beBytes 4 wd ++ acc) []

/-- The sixteen lowercase hex digit characters, by code point. -/
def hexDigits : List Char :=
  (List.range 16).map (fun i => Char.ofNat (if i < 10 then 48 + i else 87 + i))

def bytesToHexChars (bs : List Nat) : List Char :=
  bs.foldr (fun b acc => hexDigits.getD (b / 16 % 16) '0' :: hexDigits.getD (b % 16) '0' :: acc) []

/-- Lowercase hex rendering of a byte list (`.hexdigest()`). -/
def bytesToHex (bs : List Nat) : String :=
  ⟨bytesToHexChars bs⟩

/-- HMAC-SHA256 per RFC 2104, which is what `hmac.new(key, msg, sha256)`
computes: pad (or hash) the key to the 64-byte block size, then
`H((key ⊕ opad) ++ H((key ⊕ ipad) ++ msg))`. -/
def hmacSha256 (key msg : List Nat) : List Nat :=
  let key1 := if 64 < key.length then sha256 key else key
  let kpad := key1 ++ List.replicate (64 - key1.length) 0
  let ipadded := kpad.map (fun b => b ^^^ 54)
  let opadded := kpad.map (fun b => b ^^^ 92)
  sha256 (opadded ++ sha256 (ipadded ++ msg))

/-- UTF-8 encoding of a character (model of Python `str.encode("utf-8")`). -/
def utf8Char (c : Char) : List Nat :=
  let n := c.toNat
  if n < 128 then [n]
  else if n < 2048 then [192 + n / 64, 128 + n % 64]
  else if n < 65536 then [224 + n / 4096, 128 + n / 64 % 64, 128 + n % 64]
  else [240 + n / 262144, 128 + n / 4096 % 64, 128 + n / 64 % 64, 128 + n % 64]

def utf8Bytes (s : String) : List Nat :=
  s.data.foldr (fun c acc => utf8Char c ++ acc) []

/-! ## Embedding of `auth.py` -/

/-- The fields of `AuthManager`: configured credentials and the cached
session (`_session_token` / `_authenticated_user`). -/
structure AuthState where
  user_id : Option String
  secret_key : Option String
  session_token : Option String
  authenticated_user : Option String
deriving DecidableEq

/-- A fresh `AuthManager(user_id, secret_key)`. -/
def AuthState.init (u k : Option String) : AuthState :=
  ⟨u, k, none, none⟩

/-- Embeds `AuthManager.has_credentials` (`bool(user_id and secret_key)`;
`None` and `""` are falsy). -/
def has_credentials (st : AuthState) : Bool :=
  optTruthy st.user_id && optTruthy st.secret_key

/-- Embeds `AuthManager.compute_signature`: missing (or empty) secret is an
`AuthenticationError`; otherwise HMAC-SHA256 of the UTF-8 bytes of the
stripped message, keyed by the UTF-8 bytes of the secret, as lowercase hex. -/
def compute_signature (st : AuthState) (message : String) : Except PyErr String :=
  if !optTruthy st.secret_key then
    .error (.sneldb .authentication "Secret key is not configured")
  else
    .ok (bytesToHex (hmacSha256 (utf8Bytes (st.secret_key.getD ""))
      (utf8Bytes (pyStrip message))))

inductive TransportKind where
  | http | tcp
deriving DecidableEq

/-- Embeds `AuthManager.format_command`. -/
def format_command (st : AuthState) (command : String) (kind : TransportKind) :
    Except PyErr String :=
  if kind ≠ .tcp then .ok command
  else
    let trimmed := pyStrip command
    if optTruthy st.session_token then
      .ok (trimmed ++ " TOKEN " ++ st.session_token.getD "")
    else if optTruthy st.authenticated_user then
      match compute_signature st trimmed with
      | .error e => .error e
      | .ok signature => .ok (signature ++ ":" ++ trimmed)
    else if optTruthy st.user_id && optTruthy st.secret_key then
      match compute_signature st trimmed with
      | .error e => .error e
      | .ok signature => .ok (st.user_id.getD "" ++ ":" ++ signature ++ ":" ++ trimmed)
    else .ok trimmed

/-- Embeds `AuthManager._extract_token`: the suffix after the first
`"OK TOKEN "` marker is whitespace-split and indexed at `[0]` — an empty
split (marker followed only by whitespace or end of text) raises
`IndexError`. -/
def extractToken (body : String) : Except PyErr (Option String) :=
  match suffixAfterSub "OK TOKEN ".data body.data with
  | none => .ok none
  | some tail =>
    match pySplitWs ⟨tail⟩ with
    | [] => .error .indexError
    | t :: _ => .ok (if (pyStrip t).data.isEmpty then none else some (pyStrip t))

/-- Embeds `AuthManager.authenticate`; the transport is modelled by the
`TransportResponse` it returns for the AUTH command. -/
def authenticate (st : AuthState) (kind : TransportKind) (resp : TransportResponse) :
    Except PyErr (AuthState × String) :=
  if kind ≠ .tcp then
    .error (.sneldb .authentication "AUTH is only supported for TCP/TLS transports")
  else if !has_credentials st then
    .error (.sneldb .authentication "User ID and secret key are required for AUTH")
  else
    match compute_signature st (st.user_id.getD "") with
    | .error e => .error e
    | .ok _signature =>
      if resp.status ≠ 200 then
        .error (.sneldb .authentication ("Authentication failed: " ++ resp.body))
      else
        match extractToken resp.body with
        | .error e => .error e
        | .ok none => .error (.sneldb .connection ("Unexpected AUTH response: " ++ resp.body))
        | .ok (some token) =>
          .ok ({ st with session_token := some token, authenticated_user := st.user_id }, token)

/-- Embeds `AuthManager.clear`. -/
def clear (st : AuthState) : AuthState :=
  { st with session_token := none, authenticated_user := none }

/-! ## Embedding of the `transport/tcp.py` framing loop bounds -/

/-- `\s` of Python's `re` on ASCII. -/
def reWs (c : Char) : Bool :=
  c = ' ' || c = '\t' || c = '\n' || c = '\r' || c = '\x0b' || c = '\x0c'

/-- Embeds `TcpTransport._is_stream_end`. -/
def isStreamEnd (line : String) : Bool :=
  !line.data.isEmpty && pyContains line "\"type\"" && pyContains line "\"end\""

def failCodes : List String :=
  ["400", "401", "403", "404", "500", "503"]

/-- Embeds `TcpTransport._is_error_line` (`ERROR:` marker, or
`^(?:400|401|403|404|500|503)\s+`). -/
def isErrorLine (line : String) : Bool :=
  !line.data.isEmpty &&
    (pyStartsWith line "ERROR:" ||
      (failCodes.any (fun c => pyStartsWith line c) &&
        (match line.data.drop 3 with
         | w :: _ => reWs w
         | [] => false)))

/-- Embeds `TcpTransport._looks_like_status_line` (`OK` marker, or
`^\d{3}\s+OK`). -/
def looksLikeStatusLine (line : String) : Bool :=
  !line.data.isEmpty &&
    (pyStartsWith line "OK" ||
      (match line.data with
       | d1 :: d2 :: d3 :: rest =>
         pyIsDigitChar d1 && pyIsDigitChar d2 && pyIsDigitChar d3 &&
           (let r := rest.dropWhile reWs
            decide (r.length < rest.length) && "OK".data.isPrefixOf r)
       | _ => false))

/-- One `select`-gated read inside `TcpTransport._drain_content`:
the poll can time out, see a closed stream, or produce a line. -/
inductive DrainEvent where
  | notReady
  | closedLine
  | line : String → DrainEvent

/-- Embeds the loop body of `TcpTransport._drain_content` starting at poll
`i` with `fuel` loop iterations left; returns the accumulated lines and the
number of `select` polls performed. -/
def drainAux (g : Nat → DrainEvent) : Nat → Nat → List String → (List String × Nat)
  | _, 0, acc => (acc, 0)
  | i, Nat.succ fuel, acc =>
    match g i with
    | .notReady => (acc, 1)
    | .closedLine => (acc, 1)
    | .line s =>
      let stripped := pyRstripCrLf s
      if stripped.data.isEmpty then (acc, 1)
      else if isStreamEnd stripped then (acc ++ [stripped], 1)
      else
        let (res, p) := drainAux g (i + 1) fuel (acc ++ [stripped])
        (res, p + 1)

/-- Embeds `TcpTransport._drain_content` (`for _ in range(1000)`). -/
def drainContent (g : Nat → DrainEvent) (dest : List String) : List String × Nat :=
  drainAux g 0 1000 dest

/-- Embeds the `while iterations < 1000` loop of
`TcpTransport._read_response_lines` over an abstract line stream `f`
(`f pos = none` models `readline()` returning `""`, i.e. a closed peer).
Returns the collected lines, the number of main-loop reads, and the number
of drain polls. -/
def readAux (f : Nat → Option String) (g : Nat → DrainEvent) :
    Nat → Nat → List String → (List String × Nat × Nat)
  | _, 0, acc => (acc, 0, 0)
  | pos, Nat.succ fuel, acc =>
    match f pos with
    | none => (acc, 1, 0)
    | some line =>
      let stripped := pyRstripCrLf line
      let acc1 := if stripped.data.isEmpty then acc else acc ++ [stripped]
      if isStreamEnd stripped || isErrorLine stripped then (acc1, 1, 0)
      else if looksLikeStatusLine stripped then
        let (res, p) := drainContent g acc1
        (res, 1, p)
      else
        let (res, m, p) := readAux f g (pos + 1) fuel acc1
        (res, m + 1, p)

/-- Embeds `TcpTransport._read_response_lines`. -/
def readResponseLines (f : Nat → Option String) (g : Nat → DrainEvent) :
    List String × Nat × Nat :=
  readAux f g 0 1000 []

/-! ## Embedding of `client.SnelDBClient._handle_response` -/

/-- Embeds `SnelDBClient._handle_response`. The final branch embeds
`raise ConnectionError(f"Unexpected response {status}: {body}")`: the
f-string names `body`, but the local variable is `body_text` and no `body`
is in scope, so evaluating it raises `NameError` before any
`ConnectionError` is constructed. -/
def handleResponse (hasArrow : Bool)
    (arrowReader : String → Except ArrowFault (List JValue))
    (resp : TransportResponse) : Except PyErr (List JValue) :=
  if resp.status = 200 then parse_and_normalize_response hasArrow arrowReader resp
  else
    let message := extract_error_message resp.body
    if resp.status = 400 ∨ resp.status = 405 then .error (.sneldb .command message)
    else if resp.status = 401 then .error (.sneldb .authentication message)
    else if resp.status = 403 then .error (.sneldb .authorization message)
    else if resp.status = 404 then .error (.sneldb .notFound message)
    else if resp.status = 500 ∨ resp.status = 503 then .error (.sneldb .server message)
    else .error (.nameError "body")

/-! ## Spec-side definitions (from the specification text, for comparison) -/

/-- The documented status-code → error-kind mapping of the spec
(section 7, Propagation). -/
def documentedKind (status : Nat) : SnelKind :=
  if status = 400 ∨ status = 405 then .command
  else if status = 401 then .authentication
  else if status = 403 then .authorization
  else if status = 404 then .notFound
  else if status = 500 ∨ status = 503 then .server
  else .connection

/-- The claimed drop condition on the first line: starts with `OK`
case-insensitively, starts with `200 `, or its first three characters are
all digits. -/
def claimDropCond (first : String) : Bool :=
  pyStartsWith (pyUpper first) "OK" || pyStartsWith first "200 " ||
    (match first.data with
     | c1 :: c2 :: c3 :: _ => pyIsDigitChar c1 && pyIsDigitChar c2 && pyIsDigitChar c3
     | _ => false)

/-- The streaming-frame lines of the spec's worked example. -/
def schemaLine : String :=
  "\x7b\"type\":\"schema\",\"columns\":[\x7b\"name\":\"a\"\x7d,\x7b\"name\":\"b\"\x7d]\x7d"

def batchLine : String :=
  "\x7b\"type\":\"batch\",\"rows\":[[1,2]]\x7d"

def endLine : String :=
  "\x7b\"type\":\"end\"\x7d"

/-! ## Support lemmas -/

theorem head_false_of_dropWhile (p : Char → Bool) :
    ∀ (l : List Char) (a : Char) (as : List Char),
      l.dropWhile p = a :: as → p a = false := by
  intro l
  induction l with
  | nil => intro a as h; simp [List.dropWhile] at h
  | cons hd tl ih =>
    intro a as h
    by_cases hp : p hd
    · rw [List.dropWhile_cons, if_pos hp] at h
      exact ih a as h
    · rw [List.dropWhile_cons, if_neg hp] at h
      injection h with h1 h2
      rw [← h1]
      simpa using hp

theorem stripChars_no_lead (l : List Char) :
    (pyStripChars l).dropWhile pyWs = pyStripChars l := by
  cases hB : pyStripChars l with
  | nil => simp
  | cons a as =>
    have hB2 : List.rdropWhile pyWs (l.dropWhile pyWs) = a :: as := hB
    obtain ⟨t, ht⟩ := List.rdropWhile_prefix pyWs (l.dropWhile pyWs)
    rw [hB2] at ht
    have hX : l.dropWhile pyWs = a :: (as ++ t) := by
      rw [← ht]; simp
    have hpa : pyWs a = false := head_false_of_dropWhile pyWs l a (as ++ t) hX
    simp [List.dropWhile_cons, hpa]

theorem pyStripChars_idem (l : List Char) :
    pyStripChars (pyStripChars l) = pyStripChars l := by
  have h1 : (pyStripChars l).reverse = ((l.dropWhile pyWs).reverse).dropWhile pyWs := by
    simp [pyStripChars]
  show ((((pyStripChars l).dropWhile pyWs).reverse).dropWhile pyWs).reverse = pyStripChars l
  rw [stripChars_no_lead l, h1, List.dropWhile_idempotent, ← h1, List.reverse_reverse]

theorem pyStrip_idem (s : String) : pyStrip (pyStrip s) = pyStrip s :=
  congrArg String.mk (pyStripChars_idem s.data)

theorem getD_hexDigits_mem (n : Nat) : hexDigits.getD n '0' ∈ hexDigits := by
  by_cases h : n < hexDigits.length
  · have h16 : n < 16 := by simpa [hexDigits] using h
    interval_cases n <;> decide
  · rw [List.getD_eq_default _ _ (Nat.le_of_not_lt h)]
    decide

theorem mem_bytesToHexChars (bs : List Nat) :
    ∀ c ∈ bytesToHexChars bs, c ∈ hexDigits := by
  induction bs with
  | nil => simp [bytesToHexChars]
  | cons b rest ih =>
    intro c hc
    simp only [bytesToHexChars, List.foldr_cons, List.mem_cons] at hc
    rcases hc with hc | hc | hc
    · exact hc ▸ getD_hexDigits_mem _
    · exact hc ▸ getD_hexDigits_mem _
    · exact ih c hc

theorem extractToken_some_not_empty {b t : String}
    (h : extractToken b = .ok (some t)) : t.data.isEmpty = false := by
  unfold extractToken at h
  split at h
  · simp at h
  · split at h
    · simp at h
    · split at h
      · simp at h
      · rename_i hg
        simp only [Except.ok.injEq, Option.some.injEq] at h
        rw [← h]
        simpa using hg

theorem drainAux_polls_le (g : Nat → DrainEvent) :
    ∀ (fuel i : Nat) (acc : List String), (drainAux g i fuel acc).2 ≤ fuel := by
  intro fuel
  induction fuel with
  | zero => intro i acc; simp [drainAux]
  | succ f ih =>
    intro i acc
    simp only [drainAux]
    cases g i with
    | notReady => simp
    | closedLine => simp
    | line s =>
      simp only
      split
      · simp
      · split
        · simp
        · have := ih (i + 1) (acc ++ [pyRstripCrLf s])
          omega

theorem readAux_counts_le (f : Nat → Option String) (g : Nat → DrainEvent) :
    ∀ (fuel pos : Nat) (acc : List String),
      (readAux f g pos fuel acc).2.1 ≤ fuel ∧ (readAux f g pos fuel acc).2.2 ≤ 1000 := by
  intro fuel
  induction fuel with
  | zero => intro pos acc; simp [readAux]
  | succ fl ih =>
    intro pos acc
    simp only [readAux]
    cases f pos with
    | none => simp
    | some line =>
      simp only
      split
      · simp
      · split
        · constructor
          · simp
          · exact drainAux_polls_le g 1000 0 _
        · have h1 := ih (pos + 1)
            (if (pyRstripCrLf line).data.isEmpty = true then acc
             else acc ++ [pyRstripCrLf line])
          exact ⟨Nat.succ_le_succ h1.1, h1.2⟩

/-! ## The claims -/

/-- Claim C7: for every incoming line stream, even one that never produces
a terminal line, the TCP response-framing loop terminates (it is a total
function here) and is bounded: the main read loop of
`_read_response_lines` performs at most 1000 iterations and the
post-status `_drain_content` loop performs at most 1000 polls. -/
theorem claim_C7 (f : Nat → Option String) (g : Nat → DrainEvent) :
    (readResponseLines f g).2.1 ≤ 1000 ∧ (readResponseLines f g).2.2 ≤ 1000 :=
  readAux_counts_le f g 1000 0 []

/-- Claim C3 (code evaluated at the failing input): an AUTH exchange over
TCP with credentials configured, against a 200 response whose body has the
`"OK TOKEN "` marker followed by nothing, raises `IndexError` (from
`body[idx:].split()[0]` on an empty split) — not the connection-class
error the claim describes. -/
theorem claim_C3 :
    authenticate (AuthState.init (some "user") (some "secret")) .tcp
      ⟨200, "OK TOKEN ", ""⟩ = .error .indexError := by
  rfl

/-- Claim C4 (amended): with no session token, no remembered user and no
credentials, formatting a command for a TCP transport returns the
whitespace-trimmed command (not the command exactly as given). -/
theorem claim_C4 (st : AuthState) (cmd : String) (hu : st.user_id = none)
    (hk : st.secret_key = none) (ht : st.session_token = none)
    (ha : st.authenticated_user = none) :
    format_command st cmd .tcp = .ok (pyStrip cmd) := by
  obtain ⟨u, k, t, a⟩ := st
  simp only at hu hk ht ha
  subst hu hk ht ha
  simp [format_command, optTruthy]

/-- Claim C4, counterexample to the claim as stated: with no credentials at
all, a command with surrounding whitespace is returned trimmed, not
exactly as given. -/
theorem claim_C4_counterexample :
    format_command (AuthState.init none none) " PING " .tcp = .ok "PING" ∧
      " PING " ≠ "PING" := by
  exact ⟨rfl, by decide⟩

/-- Witness for claim C4's amended theorem at a concrete input. -/
theorem claim_C4_witness :
    format_command (AuthState.init none none) "  QUERY  " .tcp =
      .ok (pyStrip "  QUERY  ") ∧ pyStrip "  QUERY  " = "QUERY" :=
  ⟨claim_C4 (AuthState.init none none) "  QUERY  " rfl rfl rfl rfl, rfl⟩

/-- Claim C10: the text normalizer drops the first line whenever it starts
with `OK` case-insensitively, starts with `200 `, or its first three
characters are all digits — even when that line is data: a pipe table
whose header line begins with three digits loses that line and is parsed
from the second line onward. -/
theorem claim_C10 :
    (∀ (first : String) (rest : List String), claimDropCond first = true →
      dropStatusLine (first :: rest) = rest) ∧
    parse_text_to_records "123|x\nID|NAME\n1|Alice" =
      .ok [.jobj [("id", .jstr "1"), ("name", .jstr "Alice")]] := by
  constructor
  · intro first rest h
    simp only [claimDropCond, Bool.or_eq_true] at h
    have hcond : (pyStartsWith (pyUpper first) "OK" || pyStartsWith first "200 "
        || pyIsDigit (pyTake 3 first)) = true := by
      rcases h with (h | h) | h
      · simp [h]
      · simp [h]
      · have hdig : pyIsDigit (pyTake 3 first) = true := by
          cases hd : first.data with
          | nil => rw [hd] at h; simp at h
          | cons c1 tl1 =>
            cases hd2 : tl1 with
            | nil => rw [hd, hd2] at h; simp at h
            | cons c2 tl2 =>
              cases hd3 : tl2 with
              | nil => rw [hd, hd2, hd3] at h; simp at h
              | cons c3 tl3 =>
                rw [hd, hd2, hd3] at h
                simp only [Bool.and_eq_true] at h
                simp [pyIsDigit, pyTake, hd, hd2, hd3, h.1, h.2]
        simp [hdig]
    simp only [dropStatusLine]
    rw [if_pos hcond]
  · rfl

/-- Witness for claim C10 at a concrete input. -/
theorem claim_C10_witness :
    claimDropCond "123AB" = true ∧ dropStatusLine ["123AB", "x|y"] = ["x|y"] :=
  ⟨rfl, claim_C10.1 "123AB" ["x|y"] rfl⟩

/-- Claim C2 (code evaluated at the failing inputs): for a response status
that is neither 200 nor one of the seven mapped codes, `_handle_response`
raises `NameError` (the `f"Unexpected response {status}: {body}"` f-string
names the undefined variable `body`), not the claimed connection-class
error. -/
theorem claim_C2 (resp : TransportResponse) (hasArrow : Bool)
    (reader : String → Except ArrowFault (List JValue))
    (h200 : resp.status ≠ 200)
    (h : resp.status ∉ ([400, 401, 403, 404, 405, 500, 503] : List Nat)) :
    handleResponse hasArrow reader resp = .error (.nameError "body") := by
  obtain ⟨s, b, ct⟩ := resp
  simp only at h200 h ⊢
  simp only [List.mem_cons, List.not_mem_nil, or_false, not_or] at h
  obtain ⟨h400, h401, h403, h404, h405, h500, h503⟩ := h
  simp [handleResponse, h200, h400, h401, h403, h404, h405, h500, h503]

/-- Witness for claim C2 at status 418. -/
theorem claim_C2_witness :
    handleResponse false (fun _ => .ok []) ⟨418, "teapot", ""⟩ =
      .error (.nameError "body") :=
  claim_C2 ⟨418, "teapot", ""⟩ false (fun _ => .ok []) (by decide) (by decide)

/-- Claim C1: for every response whose status is one of 400, 401, 403,
404, 405, 500, 503, `_handle_response` raises the documented error kind
(400/405 command, 401 authentication, 403 authorization, 404 not-found,
500/503 server) with the message extracted from the response body, and
never returns a record list. -/
theorem claim_C1 (resp : TransportResponse) (hasArrow : Bool)
    (reader : String → Except ArrowFault (List JValue))
    (h : resp.status ∈ ([400, 401, 403, 404, 405, 500, 503] : List Nat)) :
    handleResponse hasArrow reader resp =
      .error (.sneldb (documentedKind resp.status) (extract_error_message resp.body)) ∧
    ∀ recs, handleResponse hasArrow reader resp ≠ .ok recs := by
  obtain ⟨s, b, ct⟩ := resp
  simp only [List.mem_cons, List.not_mem_nil, or_false] at h
  rcases h with h | h | h | h | h | h | h <;> subst h <;>
    refine ⟨rfl, fun recs h2 => ?_⟩ <;> simp [handleResponse] at h2

/-- Witness for claim C1 at status 404 with a JSON error body. -/
theorem claim_C1_witness :
    handleResponse false (fun _ => .ok [])
        ⟨404, "\x7b\"message\":\"nope\"\x7d", ""⟩ =
      .error (.sneldb (documentedKind 404)
        (extract_error_message "\x7b\"message\":\"nope\"\x7d")) ∧
    extract_error_message "\x7b\"message\":\"nope\"\x7d" = "nope" ∧
    documentedKind 404 = .notFound :=
  ⟨(claim_C1 ⟨404, "\x7b\"message\":\"nope\"\x7d", ""⟩ false (fun _ => .ok [])
      (by decide)).1, rfl, rfl⟩

/-- Claim C5: `compute_signature` with a configured non-empty secret
returns the lowercase-hex HMAC-SHA256 of the UTF-8 bytes of the trimmed
message keyed by the UTF-8 bytes of the secret; it is deterministic; and
with no secret configured (absent or empty) it raises an
authentication-class error. -/
theorem claim_C5 (st : AuthState) (msg k : String) (hk : st.secret_key = some k)
    (hne : k ≠ "") :
    compute_signature st msg =
      .ok (bytesToHex (hmacSha256 (utf8Bytes k) (utf8Bytes (pyStrip msg)))) ∧
    (∀ c ∈ (bytesToHex (hmacSha256 (utf8Bytes k) (utf8Bytes (pyStrip msg)))).data,
      c ∈ hexDigits) ∧
    (∀ (st2 : AuthState) (msg2 : String), st2.secret_key = st.secret_key →
      msg2 = msg → compute_signature st2 msg2 = compute_signature st msg) ∧
    (∀ (st3 : AuthState) (msg3 : String),
      st3.secret_key = none ∨ st3.secret_key = some "" →
      compute_signature st3 msg3 =
        .error (.sneldb .authentication "Secret key is not configured")) := by
  have hdat : k.data.isEmpty = false := by
    cases hdk : k.data with
    | nil => exact absurd (String.ext (by simp [hdk])) hne
    | cons a l => simp
  refine ⟨?_, ?_, ?_, ?_⟩
  · simp [compute_signature, hk, optTruthy, hdat]
  · exact fun c hc => mem_bytesToHexChars _ c hc
  · intro st2 msg2 h2 h3
    subst h3
    simp only [compute_signature, h2]
  · intro st3 msg3 h3
    rcases h3 with h3 | h3 <;> simp [compute_signature, h3, optTruthy]

set_option maxRecDepth 100000 in
/-- Witness for claim C5 with secret `secret` and message `" PING "`;
the signature is checked against the value computed by CPython's
`hmac.new(b"secret", b"PING", hashlib.sha256).hexdigest()`. -/
theorem claim_C5_witness :
    compute_signature (AuthState.init (some "user") (some "secret")) " PING " =
      .ok (bytesToHex (hmacSha256 (utf8Bytes "secret") (utf8Bytes (pyStrip " PING ")))) ∧
    bytesToHex (hmacSha256 (utf8Bytes "secret") (utf8Bytes (pyStrip " PING "))) =
      "2ac6789d14d9df8025a3ac9ccd2360112aa44760431051665ab2fa1abdb97b78" :=
  ⟨(claim_C5 (AuthState.init (some "user") (some "secret")) " PING " "secret"
      rfl (by decide)).1, by rfl⟩

/-- Claim C6: after a successful AUTH exchange, TCP commands are formatted
by appending ` TOKEN <token>` to the trimmed command instead of being
signed; after `clear()` formatting reverts to the
`user_id:signature:command` form. -/
theorem claim_C6 (st st2 : AuthState) (resp : TransportResponse) (cmd token : String)
    (h : authenticate st .tcp resp = .ok (st2, token)) :
    format_command st2 cmd .tcp = .ok (pyStrip cmd ++ " TOKEN " ++ token) ∧
    format_command (clear st2) cmd .tcp =
      .ok (st.user_id.getD "" ++ ":" ++
        bytesToHex (hmacSha256 (utf8Bytes (st.secret_key.getD ""))
          (utf8Bytes (pyStrip cmd))) ++ ":" ++ pyStrip cmd) := by
  unfold authenticate at h
  rw [if_neg (by simp)] at h
  split at h
  · simp at h
  · rename_i hcred
    split at h
    · simp at h
    · rename_i sig hsig
      split at h
      · simp at h
      · split at h
        · simp at h
        · simp at h
        · rename_i tok0 heq2
          simp only [Except.ok.injEq, Prod.mk.injEq] at h
          obtain ⟨hst2, htok⟩ := h
          subst hst2
          subst htok
          have htne : tok0.data.isEmpty = false := extractToken_some_not_empty heq2
          have hc : has_credentials st = true := by simpa using hcred
          have hcc : optTruthy st.user_id = true ∧ optTruthy st.secret_key = true := by
            simpa [has_credentials] using hc
          obtain ⟨hu, hks⟩ := hcc
          have hn : optTruthy (none : Option String) = false := rfl
          constructor
          · simp [format_command, optTruthy, htne]
          · simp [format_command, clear, compute_signature, hn, hu, hks,
              pyStrip_idem]

/-- Witness for claim C6: a concrete AUTH success followed by formatting
with the cached token, then by signature-based formatting after `clear`. -/
theorem claim_C6_witness :
    format_command ⟨some "user", some "secret", some "abc123", some "user"⟩
        " PING " .tcp = .ok (pyStrip " PING " ++ " TOKEN " ++ "abc123") ∧
    format_command (clear ⟨some "user", some "secret", some "abc123", some "user"⟩)
        " PING " .tcp =
      .ok ("user" ++ ":" ++
        bytesToHex (hmacSha256 (utf8Bytes "secret") (utf8Bytes (pyStrip " PING "))) ++
        ":" ++ pyStrip " PING ") := by
  have h : authenticate (AuthState.init (some "user") (some "secret")) .tcp
      ⟨200, "OK TOKEN abc123", ""⟩ =
      .ok (⟨some "user", some "secret", some "abc123", some "user"⟩, "abc123") := by
    rfl
  exact claim_C6 (AuthState.init (some "user") (some "secret"))
    ⟨some "user", some "secret", some "abc123", some "user"⟩
    ⟨200, "OK TOKEN abc123", ""⟩ " PING " "abc123" h

theorem parseStreamAux_of_runLines :
    ∀ (pre : List String) (st st1 : SState),
      runLines st pre = .ok (some st1) →
      ∀ ls, parseStreamAux st (pre ++ ls) = parseStreamAux st1 ls := by
  intro pre
  induction pre with
  | nil =>
    intro st st1 h ls
    simp only [runLines, Except.ok.injEq, Option.some.injEq] at h
    subst h
    simp
  | cons l pre ih =>
    intro st st1 h ls
    simp only [runLines] at h
    split at h
    · simp at h
    · simp at h
    · rename_i stm heq
      simp only [List.cons_append, parseStreamAux, heq]
      exact ih stm st1 h ls

/-- Claim C8: the schema/batch/end streaming example yields exactly one
record `{a: 1, b: 2}` decoded positionally against the schema; and once an
`end` frame is processed, all later lines are ignored (even malformed
ones). -/
theorem claim_C8 :
    parse_streaming_json_response [schemaLine, batchLine, endLine] =
      .ok [.jobj [("a", .jint 1), ("b", .jint 2)]] ∧
    ∀ (st st1 : SState) (pre rest : List String) (e : String),
      runLines st pre = .ok (some st1) → streamLine st1 e = .ok none →
      parseStreamAux st (pre ++ e :: rest) = parseStreamAux st (pre ++ [e]) := by
  constructor
  · rfl
  · intro st st1 pre rest e h1 h2
    rw [parseStreamAux_of_runLines pre st st1 h1 (e :: rest),
      parseStreamAux_of_runLines pre st st1 h1 [e]]
    simp [parseStreamAux, h2]

/-- Witness for claim C8: after the end frame, a malformed trailing line
does not change the result. -/
theorem claim_C8_witness :
    parseStreamAux ⟨[], none⟩ ([schemaLine, batchLine] ++ endLine :: ["GARBAGE \x7d\x7b"]) =
      parseStreamAux ⟨[], none⟩ ([schemaLine, batchLine] ++ [endLine]) :=
  claim_C8.2 ⟨[], none⟩
    ⟨[.jobj [("a", .jint 1), ("b", .jint 2)]],
      some [.jobj [("name", .jstr "a")], .jobj [("name", .jstr "b")]]⟩
    [schemaLine, batchLine] ["GARBAGE \x7d\x7b"] endLine rfl rfl

/-- Claim C9 (amended): decode errors in the bracket-delimited JSON body
paths and the binary-batch paths (missing pyarrow, unreadable batch)
surface as `ParseError`; but a malformed streaming-frame line is decoded
by a bare `json.loads` and its decode error escapes unwrapped, so those
faults do not surface as `ParseError`. -/
theorem claim_C9 :
    (∀ td : String, (pyStrip td).data.isEmpty = false →
      streamingCond (dropStatusLine (bodyLines (pyStrip td))) = false →
      looksLikeJsonObject (pyStrip td) = true →
      jloads (pyStrip td) = none →
      parse_text_to_records td = .error (.sneldb .parse "Invalid JSON response")) ∧
    (∀ td : String, (pyStrip td).data.isEmpty = false →
      streamingCond (dropStatusLine (bodyLines (pyStrip td))) = false →
      looksLikeJsonObject (pyStrip td) = false →
      looksLikeJsonArray (pyStrip td) = true →
      jloads (pyStrip td) = none →
      parse_text_to_records td = .error (.sneldb .parse "Invalid JSON response")) ∧
    (∀ (reader : String → Except ArrowFault (List JValue)) (data : String),
      parse_arrow_to_records false reader data =
        .error (.sneldb .parse "Arrow response received but pyarrow is not installed")) ∧
    (∀ (reader : String → Except ArrowFault (List JValue)) (data : String)
      (e : ArrowFault), reader data = .error e →
      isParseFailure (parse_arrow_to_records true reader data) = true) ∧
    (∀ td : String, (pyStrip td).data.isEmpty = false →
      streamingCond (dropStatusLine (bodyLines (pyStrip td))) = true →
      parse_text_to_records td =
        parse_streaming_json_response (dropStatusLine (bodyLines (pyStrip td)))) := by
  refine ⟨?_, ?_, ?_, ?_, ?_⟩
  · intro td h1 h2 hO hload
    simp [parse_text_to_records, jsonObjectBranch, h1, h2, hO, hload]
  · intro td h1 h2 hO hA hload
    simp [parse_text_to_records, jsonObjectBranch, jsonArrayBranch, h1, h2, hO,
      hA, hload]
  · intro reader data
    rfl
  · intro reader data e he
    cases e <;> simp [parse_arrow_to_records, he, isParseFailure]
  · intro td h1 h2
    simp [parse_text_to_records, h1, h2]

/-- Claim C9, counterexample to the claim as stated: a malformed
streaming-frame line makes the normalizer raise the raw JSON decode
error, which is not a `ParseError`. -/
theorem claim_C9_counterexample :
    parse_text_to_records "\x7b\"type\":\x7d" = .error .jsonDecodeError ∧
    isParseFailure (parse_text_to_records "\x7b\"type\":\x7d") = false :=
  ⟨rfl, rfl⟩

/-- Witness for claim C9's amended theorem at concrete inputs. -/
theorem claim_C9_witness :
    parse_text_to_records "\x7b\"a\":\x7d" =
      .error (.sneldb .parse "Invalid JSON response") ∧
    parse_text_to_records "\x7b\"type\":\x7d" =
      parse_streaming_json_response
        (dropStatusLine (bodyLines (pyStrip "\x7b\"type\":\x7d"))) ∧
    parse_arrow_to_records false (fun _ => .ok []) "LPxxxx" =
      .error (.sneldb .parse "Arrow response received but pyarrow is not installed") ∧
    isParseFailure (parse_arrow_to_records true (fun _ => .error .openFailed) "zz") =
      true :=
  ⟨claim_C9.1 "\x7b\"a\":\x7d" rfl rfl rfl rfl,
   claim_C9.2.2.2.2 "\x7b\"type\":\x7d" rfl rfl,
   claim_C9.2.2.1 (fun _ => .ok []) "LPxxxx",
   claim_C9.2.2.2.1 (fun _ => .error .openFailed) "zz" .openFailed rfl⟩

end SnelDB
